import Mathlib

/-!
Shallow embedding of the PyTrendFollow IQFeed data-provider adapter
(`data/iqfeed_provider.py`) and the provider factory
(`data/providers_factory.py`), together with theorems checking the
module's specification against this embedding.

Python strings are modelled as lists of characters; pandas data frames
as a named index plus an ordered association list of named columns;
Python exceptions as an error type threaded through `Except`-shaped
results; and the observable side effects of a call (vendor requests,
store updates and deletes, log lines) as an explicit action trace.
-/

namespace PyTrendFollow

/-- Python strings, modelled as lists of characters. -/
abbrev Str := List Char

/-- Coerce a Lean string literal into the `Str` model. -/
def str (s : String) : Str := s.toList

/-- A cell value of a data frame.  The claims under study only ever compute
with integer cells (the futures contract label); every other payload coming
back from the vendor (dates, prices, volumes) is opaque and is modelled by
the `raw` constructor. -/
inductive Value where
  | int : Int → Value
  | raw : Nat → Value
deriving DecidableEq

/-- A pandas `DataFrame`: a named index and an ordered list of named
columns. -/
structure DF where
  indexName : Str
  index : List Value
  cols : List (Str × List Value)
deriving DecidableEq

namespace DF

/-- `df.index = df.index.rename(nm)`. -/
def rename_index (d : DF) (nm : Str) : DF := { d with indexName := nm }

/-- `df.reset_index(inplace=True)`: the former index becomes the first
column (under its name), and the frame gets a fresh integer range index.
pandas materialises an unnamed index under the default name `index`; the
embedding keeps that default name on the range index it installs. -/
def reset_index (d : DF) : DF :=
  { indexName := str ("index"),
    index := (List.range d.index.length).map Value.raw,
    cols := (d.indexName, d.index) :: d.cols }

/-- `df[[nm]]` column lookup (`None` models a `KeyError`). -/
def getCol? (d : DF) (nm : Str) : Option (List Value) :=
  (d.cols.find? (fun p => decide (p.1 = nm))).map Prod.snd

/-- `df[nm] = vals`: overwrite the column when present, append it
otherwise. -/
def setCol (d : DF) (nm : Str) (vals : List Value) : DF :=
  if (d.cols.map Prod.fst).contains nm then
    { d with cols := d.cols.map (fun p => if p.1 = nm then (nm, vals) else p) }
  else
    { d with cols := d.cols ++ [(nm, vals)] }

/-- `df.iloc[::-1]`: reverse the row order. -/
def reverseRows (d : DF) : DF :=
  { d with index := d.index.reverse,
           cols := d.cols.map (fun p => (p.1, p.2.reverse)) }

end DF

/-- Modelled Python exceptions: the two distinguished vendor errors
(`iq.NoDataError`, `iq.UnauthorizedError`) plus the builtin exception
classes the adapter's code can raise, and a catch-all for any other
error raised inside a vendor call. -/
inductive PyErr where
  | noDataError
  | unauthorizedError
  | keyError
  | typeError
  | attributeError
  | otherError
deriving DecidableEq

/-- `df[names]` projection onto a list of column names; a missing name
raises a `KeyError`. The projected frame keeps the index of the frame it
was taken from. -/
def DF.select (d : DF) (names : List Str) : Except PyErr DF :=
  match names.mapM (fun nm => (d.getCol? nm).map (fun c => (nm, c))) with
  | some cs => .ok { indexName := d.indexName, index := d.index, cols := cs }
  | none => .error .keyError

/-- A column-rename dictionary (`columns_mapping[...]` entries), modelled as
an ordered association list. -/
abbrev Mapping := List (Str × Str)

namespace Mapping

/-- Dictionary lookup. -/
def lookup : Mapping → Str → Option Str
  | [], _ => none
  | p :: m, k => if p.1 = k then some p.2 else lookup m k

/-- Dictionary assignment `m[k] = v`: overwrite the binding when the key is
present (keys are unique in a Python dict), append it otherwise. -/
def setKey : Mapping → Str → Str → Mapping
  | [], k, v => [(k, v)]
  | p :: m, k, v => if p.1 = k then (k, v) :: m else p :: setKey m k v

end Mapping

/-- `df.rename(columns=m, inplace=True)`: rename every column whose name has
an entry in the dictionary. -/
def DF.renameCols (d : DF) (m : Mapping) : DF :=
  { d with cols := d.cols.map (fun p =>
      (match m.lookup p.1 with | some nm => nm | none => p.1, p.2)) }

/-- The module-level `columns_mapping` table from `core.contract_store`,
restricted to the two keys this adapter reads:
`('quandl', QuotesType.currency.value)` and
`('quandl', QuotesType.others.value)`.  The adapter mutates the latter in
place. -/
structure ColumnsMapping where
  currencyMap : Mapping
  othersMap : Mapping
deriving DecidableEq

/-- `QuotesType` from `core.contract_store`: the three quote classes the
adapter's `quotes_formats` dispatch table covers (futures, currency,
others). -/
inductive QuotesType where
  | futures
  | currency
  | others
deriving DecidableEq

/-- The addressing triple `Store(library, quotes_type, symbol)`. -/
structure StoreKey where
  library : Str
  q_type : QuotesType
  symbol : Str
deriving DecidableEq

/-- One observable side effect of an adapter call: a vendor history request,
a store update or delete, or a log line. -/
inductive Action where
  | request : Str → Action
  | update : StoreKey → Option DF → Action
  | delete : StoreKey → Action
  | logInfo
  | logWarning
  | logDebug
deriving DecidableEq

/-- An instrument domain object, with the attributes this adapter reads. -/
structure Instrument where
  name : Str
  exchange : Str
  iqfeed_symbol : Str
  quandl_database : Str
  quandl_symbol : Str
  first_contract : Nat
  next_contract : Nat → Nat

/-- A currency domain object, with the attributes this adapter reads;
`quandl_rate` rescales the `[rate, high, low]` sub-frame. -/
structure Currency where
  quandl_database : Str
  quandl_symbol : Str
  quandl_rate : DF → DF

/-- A spot domain object, with the attributes this adapter reads. -/
structure Spot where
  quandl_database : Str
  quandl_symbol : Str
  quandl_column : Str
  multiplier : Int

/-- Multiplication of a cell by the spot multiplier (`data['close'] *=
spot.multiplier`); opaque cells stay opaque. -/
def scaleValue (m : Int) : Value → Value
  | .int z => .int (z * m)
  | .raw n => .raw n

/-- `IQFeedProvider._format_future`.  `data` is `None` or a frame; the
contract label is `None` when the `contract` keyword was absent (in which
case `int(contract)` raises a `TypeError`). -/
def _format_future (data : Option DF) (_instrument : Instrument)
    (contract : Option Nat) : Except PyErr (Option DF) :=
  match data with
  | none => .ok none
  | some d =>
    let d1 := (d.rename_index (str ("date"))).reset_index
    match contract with
    | none => .error .typeError
    | some ct =>
      let d2 := d1.setCol (str ("contract"))
        (List.replicate d1.index.length (Value.int (Int.ofNat ct)))
      (d2.select [str ("date"), str ("contract"), str ("close"), str ("high"),
                  str ("low"), str ("open"), str ("volume")]).map some

/-- `IQFeedProvider._format_currency`; `currencyMap` is the static
`columns_mapping[('quandl', QuotesType.currency.value)]` entry. -/
def _format_currency (currencyMap : Mapping) (data : Option DF)
    (currency : Currency) : Except PyErr (Option DF) :=
  match data with
  | none => .ok none
  | some d =>
    let d1 := d.reset_index
    let d2 := d1.renameCols currencyMap
    match d2.select [str ("rate"), str ("high"), str ("low")] with
    | .error e => .error e
    | .ok sub =>
      let scaled := currency.quandl_rate sub
      let d3 := [str ("rate"), str ("high"), str ("low")].foldl
        (fun acc nm => match scaled.getCol? nm with
                       | some c => acc.setCol nm c
                       | none => acc) d2
      (d3.select [str ("date"), str ("rate"), str ("high"), str ("low")]).map some

/-- `IQFeedProvider._format_other`.  The `cm` argument threads the shared
module-level `columns_mapping` table, whose `('quandl',
QuotesType.others.value)` entry the function mutates in place
(`mapping[column] = 'close'`) before using it; the possibly-mutated table is
returned alongside the result. -/
def _format_other (cm : ColumnsMapping) (column : Str) (data : Option DF)
    (spot : Option Spot) : ColumnsMapping × Except PyErr (Option DF) :=
  match data with
  | none => (cm, .ok none)
  | some d =>
    let d1 := d.reset_index
    let cm' := { cm with othersMap := cm.othersMap.setKey column (str ("close")) }
    let d2 := d1.renameCols cm'.othersMap
    match spot with
    | some s =>
      match d2.getCol? (str ("close")) with
      | none => (cm', .error .keyError)
      | some c =>
        let d3 := d2.setCol (str ("close")) (c.map (scaleValue s.multiplier))
        (cm', (d3.select [str ("date"), str ("close")]).map some)
    | none =>
      (cm', (d2.select [str ("date"), str ("close")]).map some)

/-- One daily bar as returned by `hist_conn.request_daily_data` (a numpy
record with the fields the adapter reads). -/
structure Bar where
  date : Value
  open_p : Value
  high_p : Value
  low_p : Value
  close_p : Value
  prd_vlm : Value
deriving DecidableEq

/-- The keyword arguments `download_table` inspects (`kwargs`); an absent
keyword is `none`. -/
structure TableKwargs where
  col : Option Str := none
  currency : Option Currency := none
  spot : Option Spot := none
  instrument : Option Instrument := none
  contract : Option Nat := none

/-- The formatter dispatch of `download_table` (lines 100-114): the function
from `quotes_formats[q_type]` with the keyword context applied.  A required
argument whose keyword was never supplied makes the eventual call raise a
`TypeError`.  Returns the (possibly mutated) shared column mapping together
with the call's outcome. -/
def apply_format (q_type : QuotesType) (kwargs : TableKwargs)
    (cm : ColumnsMapping) (data : Option DF) :
    ColumnsMapping × Except PyErr (Option DF) :=
  match q_type with
  | .futures =>
    match kwargs.instrument with
    | some i => (cm, _format_future data i kwargs.contract)
    | none => (cm, .error .typeError)
  | .currency =>
    match kwargs.currency with
    | some c => (cm, _format_currency cm.currencyMap data c)
    | none => (cm, .error .typeError)
  | .others =>
    match kwargs.col with
    | some col => _format_other cm col data kwargs.spot
    | none => (cm, .error .typeError)

/-- The body of `download_table`'s `try:` block (lines 116-131).  `resp` is
the outcome of `hist_conn.request_daily_data` for this call.  The left
summand is normal completion (actions performed, final shared mapping); the
right summand is an exception escaping the block, together with the actions
already performed and the mapping state at the moment it was raised. -/
def download_table_try (q_type : QuotesType) (symbol : Str) (db_symbol : Str)
    (kwargs : TableKwargs) (resp : Except PyErr (List Bar))
    (cm : ColumnsMapping) :
    (List Action × ColumnsMapping) ⊕ (List Action × ColumnsMapping × PyErr) :=
  let pre := [Action.logInfo, Action.request symbol]
  match resp with
  | .error e => .inr (pre, cm, e)
  | .ok bars =>
    let fut_df : DF :=
      { indexName := str ("index"),
        index := bars.map (fun b => b.date),
        cols := [(str ("open"), bars.map (fun b => b.open_p)),
                 (str ("high"), bars.map (fun b => b.high_p)),
                 (str ("low"), bars.map (fun b => b.low_p)),
                 (str ("close"), bars.map (fun b => b.close_p)),
                 (str ("volume"), bars.map (fun b => b.prd_vlm))] }
    let data := fut_df.reverseRows
    let acts := pre ++ [Action.logInfo]
    match kwargs.instrument with
    | none =>
      -- `kwargs.get('instrument').exchange` with the keyword absent:
      -- attribute access on `None` raises an `AttributeError`.
      .inr (acts, cm, PyErr.attributeError)
    | some inst =>
      let store_symbol := inst.exchange ++ str ("_") ++ db_symbol
      match apply_format q_type kwargs cm (some data) with
      | (cm', .error e) => .inr (acts, cm', e)
      | (cm', .ok t) =>
        .inl (acts ++ [Action.update ⟨str ("iqfeed"), q_type, store_symbol⟩ t],
              cm')

/-- `IQFeedProvider.download_table`.  The result type records what can
propagate to the caller: `.ok` carries the returned boolean, the action
trace and the final shared column mapping, while `.error` would be an
exception escaping the function. -/
def download_table (q_type : QuotesType) (_database : Str) (symbol : Str)
    (db_symbol : Option Str) (kwargs : TableKwargs)
    (resp : Except PyErr (List Bar)) (cm : ColumnsMapping) :
    Except PyErr (Bool × List Action × ColumnsMapping) :=
  let db_symbol := db_symbol.getD symbol
  match download_table_try q_type symbol db_symbol kwargs resp cm with
  | .inl (acts, cm') => .ok (true, acts ++ [Action.logDebug], cm')
  | .inr (acts, cm', .noDataError) => .ok (false, acts ++ [Action.logWarning], cm')
  | .inr (acts, cm', .unauthorizedError) => .ok (false, acts ++ [Action.logWarning], cm')
  | .inr (acts, cm', _) => .ok (false, acts ++ [Action.logWarning], cm')

/-- Modelled from the spec: `contract_to_tuple` from `core.utility` (not in
the sources) decomposes the integer contract label into its (year, month)
parts, the label being "an integer encoding of a futures contract's
(year, month)" consistent with `int(c/100)` being the year. -/
def contract_to_tuple (c : Nat) : Nat × Nat := (c / 100, c % 100)

/-- Modelled from the spec: `cbot_month_code` from `core.utility` (not in
the sources) maps a delivery month to its letter in the fixed month-code
alphabet `FGHJKMNQUVXZ`. -/
def cbot_month_code (month : Nat) : Str :=
  [(str ("FGHJKMNQUVXZ")).getD (month - 1) ('F')]

/-- `IQFeedProvider.download_contract`: build the vendor ticker and delegate
to `download_table` with futures quote type, the instrument's
`iqfeed_symbol` as the storage symbol, and the instrument/contract keyword
context. -/
def download_contract (instrument : Instrument) (cont_name : Nat)
    (resp : Except PyErr (List Bar)) (cm : ColumnsMapping) :
    Except PyErr (Bool × List Action × ColumnsMapping) :=
  let p := contract_to_tuple cont_name
  let api_symbol := instrument.iqfeed_symbol ++ cbot_month_code p.2 ++
    ((Nat.repr p.1).toList.drop 2).take 2
  download_table .futures instrument.quandl_database api_symbol
    (some instrument.iqfeed_symbol)
    { instrument := some instrument, contract := some cont_name } resp cm

/-- `IQFeedProvider.download_currency`: short-circuit on a symmetric pair
(`quandl_symbol[0:3] == quandl_symbol[3:6]`), otherwise delegate to
`download_table` with currency quote type and the currency keyword. -/
def download_currency (currency : Currency) (resp : Except PyErr (List Bar))
    (cm : ColumnsMapping) :
    Except PyErr (Bool × List Action × ColumnsMapping) :=
  if currency.quandl_symbol.take 3 = (currency.quandl_symbol.drop 3).take 3 then
    .ok (true, [], cm)
  else
    download_table .currency currency.quandl_database currency.quandl_symbol
      none { currency := some currency } resp cm

/-- `IQFeedProvider.download_spot`: delegate to `download_table` with the
others quote type and the spot's explicit value column. -/
def download_spot (spot : Spot) (resp : Except PyErr (List Bar))
    (cm : ColumnsMapping) :
    Except PyErr (Bool × List Action × ColumnsMapping) :=
  download_table .others spot.quandl_database spot.quandl_symbol none
    { col := some spot.quandl_column } resp cm

/-- `IQFeedProvider.drop_symbol`: delete the store record addressed by
`(self.library, q_type, database + '_' + symbol)`. -/
def drop_symbol (q_type : QuotesType) (database : Str) (symbol : Str) :
    List Action :=
  [Action.delete ⟨str ("iqfeed"), q_type, database ++ str ("_") ++ symbol⟩]

/-- `IQFeedProvider.drop_instrument`: drop under the futures quote type with
the instrument's `quandl_database` and `quandl_symbol`. -/
def drop_instrument (instrument : Instrument) : List Action :=
  drop_symbol .futures instrument.quandl_database instrument.quandl_symbol

/-- `IQFeedProvider.drop_currency`. -/
def drop_currency (currency : Currency) : List Action :=
  drop_symbol .currency currency.quandl_database currency.quandl_symbol

/-- `IQFeedProvider.connect`: open the history session, then the lookup
session, and return `True`.  The arguments are the outcomes of the two
underlying SDK `connect()` calls (`hist_conn.connect()` raising propagates
before `lookup_conn.connect()` runs); whatever either raises propagates
unchanged, and otherwise the function returns `True` unconditionally. -/
def connect (histConnect : Except PyErr Unit) (lookupConnect : Except PyErr Unit) :
    Except PyErr Bool :=
  match histConnect with
  | .error e => .error e
  | .ok _ =>
    match lookupConnect with
    | .error e => .error e
    | .ok _ => .ok true

/-- What `download_instrument` can signal to its caller at the connection
phase: the adapter's own `ConnectionException`, or a Python exception
propagating from inside `connect` untranslated. -/
inductive DIError where
  | connectionException
  | pyErr : PyErr → DIError
deriving DecidableEq

/-- The connection phase of `IQFeedProvider.download_instrument`
(lines 45-48): `ok = self.connect()`; when `connect` raises, the exception
propagates; when it returns a falsy value, a `ConnectionException` is
raised; otherwise the walk proceeds. -/
def download_instrument_connect (histConnect : Except PyErr Unit)
    (lookupConnect : Except PyErr Unit) : Except DIError Bool :=
  match connect histConnect lookupConnect with
  | .error e => .error (.pyErr e)
  | .ok ok => if ok then .ok true else .error .connectionException

/-- The mutable state of the contract-chain walk in
`download_instrument`: the current contract label `c`, the failure counter
`fail_count`, and the number of `download_contract` calls issued so far
(used to index into the sequence of simulated download outcomes). -/
structure WalkState where
  c : Nat
  fail_count : Nat
  calls : Nat
deriving DecidableEq

/-- The environment of the contract-chain walk: the outcome of the k-th
`download_contract` call, the instrument's `next_contract` successor
function, and `datetime.datetime.now().year`. -/
structure WalkEnv where
  dl : Nat → Bool
  next_contract : Nat → Nat
  currentYear : Nat

/-- One iteration of the `while fail_count <= 12` loop body of
`download_instrument` (lines 63-71).  Returns the next state together with
the list of contract labels passed to `download_contract` during the
iteration: on success the counter resets to `0`; on failure the counter is
bumped only when `int(c/100) >= datetime.datetime.now().year`, and the same
contract is downloaded once more (result discarded); either way the label
advances through `instrument.next_contract`. -/
def walk_body (env : WalkEnv) (s : WalkState) : WalkState × List Nat :=
  if env.dl s.calls then
    ({ c := env.next_contract s.c, fail_count := 0, calls := s.calls + 1 }, [s.c])
  else
    ({ c := env.next_contract s.c,
       fail_count := if s.c / 100 ≥ env.currentYear then s.fail_count + 1
                     else s.fail_count,
       calls := s.calls + 2 }, [s.c, s.c])

/-- The `while fail_count <= 12` loop of `download_instrument`
(lines 62-71), run with `fuel` as an upper bound on the number of
iterations examined.  Returns `none` when the loop is still running after
`fuel` iterations, and otherwise the number of iterations executed before
the guard failed, together with the concatenated download trace. -/
def walk_loop (env : WalkEnv) : Nat → WalkState → Option (Nat × List Nat)
  | 0, s => if s.fail_count ≤ 12 then none else some (0, [])
  | fuel + 1, s =>
    if s.fail_count ≤ 12 then
      match walk_loop env fuel (walk_body env s).1 with
      | none => none
      | some (n, tr) => some (n + 1, (walk_body env s).2 ++ tr)
    else some (0, [])

/-- The value of `fail_count` after `n` iterations of the loop body from
state `s` (not yet truncated by the loop guard). -/
def fail_seq (env : WalkEnv) (s : WalkState) : Nat → Nat
  | 0 => s.fail_count
  | n + 1 => fail_seq env (walk_body env s).1 n

/-- The three provider modules `providers_factory.get_provider` can
import. -/
inductive ProviderModule where
  | quandl_provider
  | ib_provider
  | iqfeed_provider
deriving DecidableEq

/-- The three provider classes `get_provider` can construct. -/
inductive Provider where
  | QuandlProvider
  | IBProvider
  | IQFeedProvider
deriving DecidableEq

/-- `providers_factory.get_provider`: returns the list of vendor-specific
modules imported during the call together with either the constructed
provider or the raised error message. -/
def get_provider (name : Str) : List ProviderModule × Except Str Provider :=
  if name = str ("quandl") then
    ([ProviderModule.quandl_provider], .ok Provider.QuandlProvider)
  else if name = str ("ib") then
    ([ProviderModule.ib_provider], .ok Provider.IBProvider)
  else if name = str ("iqfeed") then
    ([ProviderModule.iqfeed_provider], .ok Provider.IQFeedProvider)
  else
    ([], .error (str ("Unknown data provider name: ") ++ name))

/-! ### Concrete fixtures used by witnesses and counterexamples -/

/-- An empty shared column-mapping table. -/
def cm0 : ColumnsMapping := { currencyMap := [], othersMap := [] }

/-- A concrete instrument whose quandl identifiers differ from its
exchange/iqfeed identifiers, as is typical for configured instruments. -/
def i0 : Instrument :=
  { name := str ("Corn"), exchange := str ("CME"), iqfeed_symbol := str ("@C"),
    quandl_database := str ("CHRIS"), quandl_symbol := str ("CME_C1"),
    first_contract := 201503, next_contract := fun c => c + 1 }

/-- A walk environment in which every download fails and every contract's
year has reached the current calendar year. -/
def env0 : WalkEnv :=
  { dl := fun _ => false, next_contract := fun c => c + 1, currentYear := 2025 }

/-- A walk environment in which every download succeeds. -/
def env1 : WalkEnv :=
  { dl := fun _ => true, next_contract := fun c => c + 1, currentYear := 2025 }

/-- The walk's start state at contract `202501` with a zero counter. -/
def s0 : WalkState := { c := 202501, fail_count := 0, calls := 0 }

/-- A symmetric currency pair. -/
def c0 : Currency :=
  { quandl_database := str ("CURRFX"), quandl_symbol := str ("USDUSD"),
    quandl_rate := fun d => d }

/-- A concrete spot object. -/
def spot0 : Spot :=
  { quandl_database := str ("ODA"), quandl_symbol := str ("PALUM"),
    quandl_column := str ("VALUE"), multiplier := 1 }

/-- The zero-row bar table `download_table` assembles from an empty vendor
response. -/
def d0 : DF :=
  { indexName := str ("index"), index := [],
    cols := [(str ("open"), []), (str ("high"), []), (str ("low"), []),
             (str ("close"), []), (str ("volume"), [])] }

/-! ### The contract-chain walk (claims C1 and C2) -/

/-- Each loop-body step changes the failure counter by at most one upward. -/
lemma fail_seq_step_le (env : WalkEnv) :
    ∀ (n : Nat) (s : WalkState),
    fail_seq env s (n + 1) ≤ fail_seq env s n + 1 := by
  intro n
  induction n with
  | zero =>
    intro s
    show (walk_body env s).1.fail_count ≤ s.fail_count + 1
    unfold walk_body
    split_ifs <;> simp
  | succ n ihn =>
    intro s
    simp only [fail_seq]
    exact ihn (walk_body env s).1

/-- Characterisation of the loop of `download_instrument`: it runs for
exactly `n` iterations (within the examined fuel) precisely when the
counter first exceeds the threshold `12` after the `n`-th iteration. -/
lemma walk_loop_iff (env : WalkEnv) :
    ∀ (fuel n : Nat) (s : WalkState),
    (∃ tr, walk_loop env fuel s = some (n, tr)) ↔
    (n ≤ fuel ∧ 12 < fail_seq env s n ∧ ∀ m < n, fail_seq env s m ≤ 12) := by
  intro fuel
  induction fuel with
  | zero =>
    intro n s
    simp only [walk_loop]
    by_cases hfc : s.fail_count ≤ 12
    · rw [if_pos hfc]
      constructor
      · rintro ⟨tr, h⟩
        simp at h
      · rintro ⟨hn, hgt, -⟩
        have hn0 : n = 0 := Nat.le_zero.mp hn
        subst hn0
        simp only [fail_seq] at hgt
        omega
    · rw [if_neg hfc]
      constructor
      · rintro ⟨tr, h⟩
        simp only [Option.some.injEq, Prod.mk.injEq] at h
        obtain ⟨h1, -⟩ := h
        subst h1
        refine ⟨Nat.le_refl 0, ?_, ?_⟩
        · simp only [fail_seq]
          omega
        · intro m hm
          exact absurd hm (Nat.not_lt_zero m)
      · rintro ⟨hn, -, -⟩
        have hn0 : n = 0 := Nat.le_zero.mp hn
        subst hn0
        exact ⟨[], rfl⟩
  | succ fuel ih =>
    intro n s
    simp only [walk_loop]
    by_cases hfc : s.fail_count ≤ 12
    · rw [if_pos hfc]
      constructor
      · rintro ⟨tr, h⟩
        cases hrec : walk_loop env fuel (walk_body env s).1 with
        | none =>
          rw [hrec] at h
          simp at h
        | some p =>
          obtain ⟨k, tr'⟩ := p
          rw [hrec] at h
          simp only [Option.some.injEq, Prod.mk.injEq] at h
          obtain ⟨hk, -⟩ := h
          subst hk
          have hIH := (ih k (walk_body env s).1).mp ⟨tr', hrec⟩
          refine ⟨by omega, ?_, ?_⟩
          · simpa only [fail_seq] using hIH.2.1
          · intro m hm
            cases m with
            | zero => simpa only [fail_seq] using hfc
            | succ m' =>
              simp only [fail_seq]
              exact hIH.2.2 m' (by omega)
      · rintro ⟨hn, hgt, hall⟩
        cases n with
        | zero =>
          simp only [fail_seq] at hgt
          omega
        | succ k =>
          have hIH := (ih k (walk_body env s).1).mpr
            ⟨by omega, by simpa only [fail_seq] using hgt,
             fun m hm => by simpa only [fail_seq] using hall (m + 1) (by omega)⟩
          obtain ⟨tr', hrec⟩ := hIH
          exact ⟨(walk_body env s).2 ++ tr', by rw [hrec]⟩
    · rw [if_neg hfc]
      constructor
      · rintro ⟨tr, h⟩
        simp only [Option.some.injEq, Prod.mk.injEq] at h
        obtain ⟨h1, -⟩ := h
        subst h1
        refine ⟨Nat.zero_le _, ?_, ?_⟩
        · simp only [fail_seq]
          omega
        · intro m hm
          exact absurd hm (Nat.not_lt_zero m)
      · rintro ⟨-, -, hall⟩
        cases n with
        | zero => exact ⟨[], rfl⟩
        | succ k =>
          have h0 := hall 0 (Nat.succ_pos k)
          simp only [fail_seq] at h0
          omega

/-- C1 (counterexample): with every download failing and every contract
year at the current calendar year, the walk executes 13 failing
iterations (the counter reaches 12 and the loop still runs once more), not
the 12 the claim states. -/
theorem walk_loop_thirteen_failing_iterations :
    (walk_loop env0 100 s0).map Prod.fst = some 13 ∧
    (walk_loop env0 100 s0).map Prod.fst ≠ some 12 ∧
    fail_seq env0 s0 12 = 12 ∧ fail_seq env0 s0 13 = 13 := by
  refine ⟨by decide, by decide, by decide, by decide⟩

/-- C1 (amended): for every sequence of download outcomes, the
contract-chain walk of `download_instrument` terminates exactly when the
year-gated failure counter exceeds 12, i.e. immediately after the 13th
consecutive counted failure; it never stops earlier and never runs a
further iteration. -/
theorem walk_loop_stops_when_counter_exceeds_twelve
    (env : WalkEnv) (fuel n : Nat) (s : WalkState)
    (h0 : s.fail_count = 0) :
    (∃ tr, walk_loop env fuel s = some (n, tr)) ↔
    (n ≤ fuel ∧ fail_seq env s n = 13 ∧ ∀ m < n, fail_seq env s m ≤ 12) := by
  rw [walk_loop_iff]
  constructor
  · rintro ⟨hn, hgt, hall⟩
    refine ⟨hn, ?_, hall⟩
    cases n with
    | zero =>
      simp only [fail_seq, h0] at hgt
      omega
    | succ k =>
      have h1 := fail_seq_step_le env k s
      have h2 := hall k (Nat.lt_succ_self k)
      omega
  · rintro ⟨hn, heq, hall⟩
    exact ⟨hn, by omega, hall⟩

/-- C1 (witness): the amended statement applied to the all-fail
environment: the walk stops after exactly 13 iterations. -/
theorem walk_loop_stops_when_counter_exceeds_twelve_witness :
    ∃ tr, walk_loop env0 100 s0 = some (13, tr) :=
  (walk_loop_stops_when_counter_exceeds_twelve env0 100 13 s0 rfl).mpr
    ⟨by decide, by decide, by decide⟩

/-- C2: in every iteration of the walk, a success resets the failure
counter to 0 and performs a single download; a failure downloads the same
contract exactly twice (one immediate retry), and bumps the counter exactly
when the contract's year has reached the current calendar year; the
contract label advances through the successor function in either case. -/
theorem walk_body_iteration_spec (env : WalkEnv) (s : WalkState) :
    ((walk_body env s).1.c = env.next_contract s.c) ∧
    (env.dl s.calls = true →
      (walk_body env s).1.fail_count = 0 ∧ (walk_body env s).2 = [s.c]) ∧
    (env.dl s.calls = false →
      (walk_body env s).2 = [s.c, s.c] ∧
      ((walk_body env s).1.fail_count = s.fail_count + 1 ↔
        env.currentYear ≤ s.c / 100) ∧
      (¬ env.currentYear ≤ s.c / 100 →
        (walk_body env s).1.fail_count = s.fail_count)) := by
  unfold walk_body
  by_cases hdl : env.dl s.calls
  · simp [hdl]
  · by_cases hyr : s.c / 100 ≥ env.currentYear
    · simp [hdl, hyr]
    · simp [hdl, hyr]

/-- C2 (witness): the iteration specification evaluated at a failing
iteration (year gate satisfied) and at a succeeding iteration. -/
theorem walk_body_iteration_spec_witness :
    (walk_body env0 s0).1.fail_count = 1 ∧
    (walk_body env0 s0).2 = [202501, 202501] ∧
    (walk_body env0 s0).1.c = 202502 ∧
    (walk_body env1 s0).1.fail_count = 0 ∧
    (walk_body env1 s0).2 = [202501] := by
  have hf := walk_body_iteration_spec env0 s0
  have hs := walk_body_iteration_spec env1 s0
  refine ⟨?_, (hf.2.2 rfl).1, hf.1, (hs.2.1 rfl).1, (hs.2.1 rfl).2⟩
  have := (hf.2.2 rfl).2.1.mpr (by decide)
  simpa using this

/-! ### The table downloader (claims C3 and C4) -/

/-- A non-symmetric currency pair. -/
def c1 : Currency :=
  { quandl_database := str ("CURRFX"), quandl_symbol := str ("EURUSD"),
    quandl_rate := fun d => d }

/-- When the vendor request raises, `download_table` returns `False` after
logging, leaving the shared mapping untouched, whatever the exception
was. -/
lemma download_table_resp_error (q_type : QuotesType) (db sym : Str)
    (dbs : Option Str) (kw : TableKwargs) (cm : ColumnsMapping) (e : PyErr) :
    download_table q_type db sym dbs kw (Except.error e) cm =
      Except.ok (false, [Action.logInfo, Action.request sym, Action.logWarning], cm) := by
  cases e <;> rfl

/-- Any exception escaping the `try:` body leaves a trace consisting of log
lines and the vendor request only — in particular no store update. -/
lemma download_table_try_inr_no_update (q_type : QuotesType) (sym dbs : Str)
    (kw : TableKwargs) (resp : Except PyErr (List Bar)) (cm : ColumnsMapping)
    (acts : List Action) (cm' : ColumnsMapping) (e : PyErr)
    (h : download_table_try q_type sym dbs kw resp cm = .inr (acts, cm', e)) :
    ∀ k t, Action.update k t ∉ acts := by
  cases resp with
  | error e2 =>
    simp only [download_table_try, Sum.inr.injEq, Prod.mk.injEq] at h
    obtain ⟨h1, -⟩ := h
    subst h1
    intro k t
    simp
  | ok bars =>
    simp only [download_table_try] at h
    cases hki : kw.instrument with
    | none =>
      simp only [hki, Sum.inr.injEq, Prod.mk.injEq] at h
      obtain ⟨h1, -⟩ := h
      subst h1
      intro k t
      simp
    | some inst =>
      simp only [hki] at h
      split at h
      · simp only [Sum.inr.injEq, Prod.mk.injEq] at h
        obtain ⟨h1, -⟩ := h
        subst h1
        intro k t
        simp
      · simp at h

/-- When no `instrument` keyword is supplied and the vendor call succeeds,
the store-key construction dereferences `None` and the `try:` body raises an
`AttributeError` before any formatter or store call runs. -/
lemma download_table_try_no_instrument (q_type : QuotesType) (sym dbs : Str)
    (kw : TableKwargs) (bars : List Bar) (cm : ColumnsMapping)
    (hin : kw.instrument = none) :
    download_table_try q_type sym dbs kw (Except.ok bars) cm =
      .inr ([Action.logInfo, Action.request sym, Action.logInfo], cm,
            PyErr.attributeError) := by
  simp only [download_table_try, hin]
  rfl

/-- C3: `download_table` never lets an exception propagate: its result is
always a boolean; a vendor error (in particular `NoDataError` or
`UnauthorizedError`) yields `False` with a warning log line, the vendor
request being the only externally visible action (no store update); and
every `False` return, whatever its cause, comes with an update-free action
trace. -/
theorem download_table_catches_all (q_type : QuotesType) (db sym : Str)
    (dbs : Option Str) (kw : TableKwargs) (resp : Except PyErr (List Bar))
    (cm : ColumnsMapping) :
    (∃ r, download_table q_type db sym dbs kw resp cm = Except.ok r) ∧
    (∀ e, resp = Except.error e →
      download_table q_type db sym dbs kw resp cm =
        Except.ok (false,
          [Action.logInfo, Action.request sym, Action.logWarning], cm)) ∧
    (∀ b acts cm',
      download_table q_type db sym dbs kw resp cm = Except.ok (b, acts, cm') →
      b = false → ∀ k t, Action.update k t ∉ acts) := by
  refine ⟨?_, ?_, ?_⟩
  · simp only [download_table]
    split
    · exact ⟨_, rfl⟩
    · exact ⟨_, rfl⟩
    · exact ⟨_, rfl⟩
    · exact ⟨_, rfl⟩
  · rintro e rfl
    exact download_table_resp_error q_type db sym dbs kw cm e
  · intro b acts cm' h hb k t
    simp only [download_table] at h
    rcases htry : download_table_try q_type sym (dbs.getD sym) kw resp cm with
      ⟨acts0, cm0⟩ | ⟨acts0, cm0, e0⟩
    · rw [htry] at h
      simp only [Except.ok.injEq, Prod.mk.injEq] at h
      obtain ⟨h1, -⟩ := h
      rw [← h1] at hb
      cases hb
    · have hno := download_table_try_inr_no_update q_type sym (dbs.getD sym)
        kw resp cm acts0 cm0 e0 htry
      rw [htry] at h
      cases e0 <;>
        (simp only [Except.ok.injEq, Prod.mk.injEq] at h
         obtain ⟨-, h2, -⟩ := h
         rw [← h2]
         simp only [List.mem_append, List.mem_singleton]
         rintro (hmem | hmem)
         · exact hno k t hmem
         · cases hmem)

/-- C3 (witness): a `NoDataError` on a currency download returns `False`
with just the request and log lines in the trace. -/
theorem download_table_catches_all_witness :
    download_table QuotesType.currency (str ("CURRFX")) (str ("EURUSD")) none
      {} (Except.error PyErr.noDataError) cm0 =
      Except.ok (false,
        [Action.logInfo, Action.request (str ("EURUSD")), Action.logWarning],
        cm0) :=
  (download_table_catches_all QuotesType.currency (str ("CURRFX"))
    (str ("EURUSD")) none {} (Except.error PyErr.noDataError) cm0).2.1
    PyErr.noDataError rfl

/-- C4: whenever the `instrument` keyword is absent — as in every
`download_spot` call and every non-symmetric `download_currency` call —
`download_table` returns `False`, never performs a store update, and leaves
the shared mapping untouched: the store-key construction dereferences the
absent instrument and the error is swallowed by the catch-all handler. -/
theorem download_table_missing_instrument_spec :
    (∀ (q_type : QuotesType) (db sym : Str) (dbs : Option Str)
       (kw : TableKwargs) (resp : Except PyErr (List Bar))
       (cm : ColumnsMapping), kw.instrument = none →
       ∃ acts, download_table q_type db sym dbs kw resp cm =
           Except.ok (false, acts, cm) ∧
         ∀ k t, Action.update k t ∉ acts) ∧
    (∀ (spot : Spot) (resp : Except PyErr (List Bar)) (cm : ColumnsMapping),
       ∃ acts, download_spot spot resp cm = Except.ok (false, acts, cm) ∧
         ∀ k t, Action.update k t ∉ acts) ∧
    (∀ (cur : Currency) (resp : Except PyErr (List Bar)) (cm : ColumnsMapping),
       cur.quandl_symbol.take 3 ≠ (cur.quandl_symbol.drop 3).take 3 →
       ∃ acts, download_currency cur resp cm = Except.ok (false, acts, cm) ∧
         ∀ k t, Action.update k t ∉ acts) := by
  have hmain : ∀ (q_type : QuotesType) (db sym : Str) (dbs : Option Str)
      (kw : TableKwargs) (resp : Except PyErr (List Bar))
      (cm : ColumnsMapping), kw.instrument = none →
      ∃ acts, download_table q_type db sym dbs kw resp cm =
          Except.ok (false, acts, cm) ∧
        ∀ k t, Action.update k t ∉ acts := by
    intro q_type db sym dbs kw resp cm hin
    cases resp with
    | error e =>
      refine ⟨[Action.logInfo, Action.request sym, Action.logWarning],
        download_table_resp_error q_type db sym dbs kw cm e, ?_⟩
      intro k t
      simp
    | ok bars =>
      refine ⟨[Action.logInfo, Action.request sym, Action.logInfo,
               Action.logWarning], ?_, ?_⟩
      · simp only [download_table]
        rw [download_table_try_no_instrument q_type sym (dbs.getD sym)
          kw bars cm hin]
        rfl
      · intro k t
        simp
  refine ⟨hmain, ?_, ?_⟩
  · intro spot resp cm
    exact hmain .others spot.quandl_database spot.quandl_symbol none
      { col := some spot.quandl_column } resp cm rfl
  · intro cur resp cm hne
    have h := hmain .currency cur.quandl_database cur.quandl_symbol none
      { currency := some cur } resp cm rfl
    simpa only [download_currency, if_neg hne] using h

/-- C4 (witness): a successful vendor response on a spot download and on a
non-symmetric currency download still produces `False` and no store
update. -/
theorem download_table_missing_instrument_spec_witness :
    (∃ acts, download_spot spot0 (Except.ok []) cm0 =
        Except.ok (false, acts, cm0) ∧
      ∀ k t, Action.update k t ∉ acts) ∧
    (∃ acts, download_currency c1 (Except.ok []) cm0 =
        Except.ok (false, acts, cm0) ∧
      ∀ k t, Action.update k t ∉ acts) :=
  ⟨download_table_missing_instrument_spec.2.1 spot0 (Except.ok []) cm0,
   download_table_missing_instrument_spec.2.2 c1 (Except.ok []) cm0
     (by decide)⟩

/-! ### Store keys of download and drop (claim C5) -/

/-- The table written for a successful zero-row futures download of `i0`. -/
def t5 : Option DF :=
  some { indexName := str ("index"), index := [],
         cols := [(str ("date"), []), (str ("contract"), []),
                  (str ("close"), []), (str ("high"), []), (str ("low"), []),
                  (str ("open"), []), (str ("volume"), [])] }

/-- C5: evaluating the code at a concrete instrument: `download_contract`
writes under the key built from `exchange` and `iqfeed_symbol`
(`CME_@C`), while `drop_instrument` deletes the key built from
`quandl_database` and `quandl_symbol` (`CHRIS_CME_C1`) — two different
store records, so dropping does not delete what downloading created. -/
theorem drop_instrument_key_differs :
    (∃ acts cm' t,
      download_contract i0 201503 (Except.ok []) cm0 =
        Except.ok (true, acts, cm') ∧
      Action.update ⟨str ("iqfeed"), QuotesType.futures, str ("CME_@C")⟩ t
        ∈ acts) ∧
    drop_instrument i0 =
      [Action.delete
        ⟨str ("iqfeed"), QuotesType.futures, str ("CHRIS_CME_C1")⟩] ∧
    str ("CME_@C") ≠ str ("CHRIS_CME_C1") := by
  refine ⟨⟨[Action.logInfo, Action.request (str ("@CH15")), Action.logInfo,
            Action.update ⟨str ("iqfeed"), QuotesType.futures, str ("CME_@C")⟩
              t5, Action.logDebug], cm0, t5, ?_, ?_⟩, rfl, by decide⟩
  · rfl
  · simp

/-! ### Symmetric currency pairs (claim C6) -/

/-- C6: a currency whose 3-letter base equals its 3-letter quote makes
`download_currency` return `True` immediately, with an empty action trace —
no vendor request, no store write — and an untouched shared mapping. -/
theorem download_currency_symmetric_short_circuit
    (b q : Str) (cur : Currency) (resp : Except PyErr (List Bar))
    (cm : ColumnsMapping) (hsym : cur.quandl_symbol = b ++ q)
    (hb : b.length = 3) (hq : q.length = 3) (heq : b = q) :
    download_currency cur resp cm = Except.ok (true, [], cm) := by
  subst heq
  have h1 : (b ++ b).take 3 = b := by
    rw [← hb]
    exact List.take_left b b
  have h2 : ((b ++ b).drop 3).take 3 = b := by
    rw [← hb, List.drop_left, List.take_length]
  unfold download_currency
  rw [hsym, h1, h2, if_pos rfl]

/-- C6 (witness): the symmetric pair `USDUSD`. -/
theorem download_currency_symmetric_short_circuit_witness :
    download_currency c0 (Except.ok []) cm0 = Except.ok (true, [], cm0) :=
  download_currency_symmetric_short_circuit (str ("USD")) (str ("USD")) c0
    (Except.ok []) cm0 (by decide) (by decide) (by decide) rfl

/-! ### The futures formatter (claim C7) -/

/-- C7: `_format_future` maps a null input to null; on a (possibly
zero-row) bar table — the shape `download_table` assembles: columns
`{open, high, low, close, volume}` over a date index — with a valid
instrument and contract, it returns a table with exactly the columns
`{date, contract, close, high, low, open, volume}`, the same number of
rows, and the integer contract label in every row of the `contract`
column. -/
theorem format_future_shape (d : DF) (inst : Instrument) (ct : Nat)
    (hcols : d.cols.map Prod.fst =
      [str ("open"), str ("high"), str ("low"), str ("close"),
       str ("volume")])
    (hrect : ∀ p ∈ d.cols, p.2.length = d.index.length) :
    (_format_future none inst (some ct) = Except.ok none) ∧
    ∃ out, _format_future (some d) inst (some ct) = Except.ok (some out) ∧
      out.cols.map Prod.fst =
        [str ("date"), str ("contract"), str ("close"), str ("high"),
         str ("low"), str ("open"), str ("volume")] ∧
      (∀ p ∈ out.cols, p.2.length = d.index.length) ∧
      out.getCol? (str ("contract")) =
        some (List.replicate d.index.length (Value.int (Int.ofNat ct))) := by
  obtain ⟨iname, idx, cols⟩ := d
  dsimp only at hcols hrect ⊢
  rcases cols with _ | ⟨⟨n1, v1⟩, cols⟩
  · simp at hcols
  rcases cols with _ | ⟨⟨n2, v2⟩, cols⟩
  · simp at hcols
  rcases cols with _ | ⟨⟨n3, v3⟩, cols⟩
  · simp at hcols
  rcases cols with _ | ⟨⟨n4, v4⟩, cols⟩
  · simp at hcols
  rcases cols with _ | ⟨⟨n5, v5⟩, cols⟩
  · simp at hcols
  rcases cols with _ | ⟨⟨n6, v6⟩, cols⟩
  swap
  · simp at hcols
  simp only [List.map_cons, List.map_nil, List.cons.injEq, and_true]
    at hcols
  obtain ⟨h1, h2, h3, h4, h5⟩ := hcols
  subst h1 h2 h3 h4 h5
  have e1 : v1.length = idx.length := hrect (str ("open"), v1) (by simp)
  have e2 : v2.length = idx.length := hrect (str ("high"), v2) (by simp)
  have e3 : v3.length = idx.length := hrect (str ("low"), v3) (by simp)
  have e4 : v4.length = idx.length := hrect (str ("close"), v4) (by simp)
  have e5 : v5.length = idx.length := hrect (str ("volume"), v5) (by simp)
  refine ⟨rfl,
    ⟨{ indexName := str ("index"),
       index := (List.range idx.length).map Value.raw,
       cols := [(str ("date"), idx),
                (str ("contract"),
                  List.replicate ((List.range idx.length).map Value.raw).length
                    (Value.int (Int.ofNat ct))),
                (str ("close"), v4), (str ("high"), v2), (str ("low"), v3),
                (str ("open"), v1), (str ("volume"), v5)] },
     rfl, rfl, ?_, ?_⟩⟩
  · intro p hp
    simp only [List.mem_cons, List.not_mem_nil, or_false] at hp
    rcases hp with rfl | rfl | rfl | rfl | rfl | rfl | rfl <;>
      simp [e1, e2, e3, e4, e5]
  · show some (List.replicate ((List.range idx.length).map Value.raw).length
        (Value.int (Int.ofNat ct))) =
      some (List.replicate idx.length (Value.int (Int.ofNat ct)))
    simp

/-- C7 (witness): the zero-row bar table yields a zero-row result with
exactly the seven output columns, and the null input yields null. -/
theorem format_future_shape_witness :
    _format_future none i0 (some 201503) = Except.ok none ∧
    ∃ out, _format_future (some d0) i0 (some 201503) = Except.ok (some out) ∧
      out.cols.map Prod.fst =
        [str ("date"), str ("contract"), str ("close"), str ("high"),
         str ("low"), str ("open"), str ("volume")] ∧
      (∀ p ∈ out.cols, p.2.length = d0.index.length) ∧
      out.getCol? (str ("contract")) =
        some (List.replicate d0.index.length
          (Value.int (Int.ofNat 201503))) :=
  format_future_shape d0 i0 201503 (by decide) (by decide)

/-! ### The provider factory (claim C8) -/

/-- C8: `get_provider` on a name outside `{quandl, ib, iqfeed}` raises the
generic error without importing any vendor-specific module, and on each of
the three known names lazily imports exactly the corresponding module and
constructs exactly the corresponding provider. -/
theorem get_provider_dispatch (name : Str) :
    (name ≠ str ("quandl") → name ≠ str ("ib") → name ≠ str ("iqfeed") →
      get_provider name =
        ([], Except.error (str ("Unknown data provider name: ") ++ name))) ∧
    get_provider (str ("quandl")) =
      ([ProviderModule.quandl_provider], Except.ok Provider.QuandlProvider) ∧
    get_provider (str ("ib")) =
      ([ProviderModule.ib_provider], Except.ok Provider.IBProvider) ∧
    get_provider (str ("iqfeed")) =
      ([ProviderModule.iqfeed_provider], Except.ok Provider.IQFeedProvider) := by
  refine ⟨?_, rfl, rfl, rfl⟩
  intro h1 h2 h3
  unfold get_provider
  rw [if_neg h1, if_neg h2, if_neg h3]

/-- C8 (witness): the unknown name `bogus` yields the generic error and an
empty import list. -/
theorem get_provider_dispatch_witness :
    get_provider (str ("bogus")) =
      ([], Except.error (str ("Unknown data provider name: ") ++
        str ("bogus"))) :=
  (get_provider_dispatch (str ("bogus"))).1 (by decide) (by decide) (by decide)

/-! ### The connection phase (claim C9) -/

/-- C9: evaluating the connection phase of `download_instrument` over every
outcome of the two SDK `connect()` calls: the `ConnectionException` branch
is unreachable — `connect` returns `True` unconditionally whenever it does
not raise — and a session-establishment failure propagates the SDK's own
exception to the caller instead. -/
theorem connection_exception_unreachable
    (h l : Except PyErr Unit) :
    (download_instrument_connect h l ≠
      Except.error DIError.connectionException) ∧
    (∀ e, h = Except.error e →
      download_instrument_connect h l = Except.error (DIError.pyErr e)) ∧
    (∀ e, h = Except.ok () → l = Except.error e →
      download_instrument_connect h l = Except.error (DIError.pyErr e)) ∧
    (h = Except.ok () → l = Except.ok () →
      download_instrument_connect h l = Except.ok true) := by
  cases h with
  | error e => simp [download_instrument_connect, connect]
  | ok u =>
    cases u
    cases l with
    | error e => simp [download_instrument_connect, connect]
    | ok u => cases u; simp [download_instrument_connect, connect]

/-- C9 (witness): an SDK error while opening the history session reaches
the caller untranslated, not as a `ConnectionException`. -/
theorem connection_exception_unreachable_witness :
    download_instrument_connect (Except.error PyErr.otherError)
        (Except.ok ()) =
      Except.error (DIError.pyErr PyErr.otherError) ∧
    download_instrument_connect (Except.error PyErr.otherError)
        (Except.ok ()) ≠
      Except.error DIError.connectionException :=
  ⟨(connection_exception_unreachable (Except.error PyErr.otherError)
      (Except.ok ())).2.1 PyErr.otherError rfl,
   (connection_exception_unreachable (Except.error PyErr.otherError)
      (Except.ok ())).1⟩

/-! ### Mutation of the shared column mapping (claim C10) -/

/-- Assigning a key makes it present with the assigned value. -/
lemma Mapping.lookup_setKey_self (m : Mapping) (k v : Str) :
    (m.setKey k v).lookup k = some v := by
  induction m with
  | nil => simp [Mapping.setKey, Mapping.lookup]
  | cons p m ih =>
    by_cases hp : p.1 = k
    · simp [Mapping.setKey, Mapping.lookup, hp]
    · simp [Mapping.setKey, Mapping.lookup, hp, ih]

/-- Assigning one key leaves every other key's binding unchanged. -/
lemma Mapping.lookup_setKey_ne (m : Mapping) (k k' v : Str)
    (hne : k ≠ k') : (m.setKey k' v).lookup k = m.lookup k := by
  induction m with
  | nil => simp [Mapping.setKey, Mapping.lookup, Ne.symm hne]
  | cons p m ih =>
    by_cases hp : p.1 = k'
    · simp [Mapping.setKey, Mapping.lookup, hp, Ne.symm hne]
    · by_cases hk : p.1 = k
      · simp [Mapping.setKey, Mapping.lookup, hp, hk, hne]
      · simp [Mapping.setKey, Mapping.lookup, hp, hk, ih]

/-- Every branch of `_format_other` on non-null data returns the shared
table with the value column freshly bound to `close`. -/
lemma format_other_fst (cm : ColumnsMapping) (column : Str) (d : DF)
    (spot : Option Spot) :
    (_format_other cm column (some d) spot).1 =
      { cm with othersMap := cm.othersMap.setKey column (str ("close")) } := by
  unfold _format_other
  cases spot with
  | none => rfl
  | some s =>
    dsimp only
    split <;> rfl

/-- C10 (counterexample): `_format_other` called on null data returns
before the mutation, so "after any call with value column X the mapping
contains X ↦ close" fails at a null-data call on the empty mapping. -/
theorem format_other_null_input_no_entry :
    _format_other cm0 (str ("VALUE")) none none = (cm0, Except.ok none) ∧
    (_format_other cm0 (str ("VALUE")) none none).1.othersMap.lookup
      (str ("VALUE")) = none := by
  exact ⟨rfl, by decide⟩

/-- C10 (amended): every `_format_other` call on non-null data permanently
binds its value column to `close` in the shared module-level mapping, and
the binding survives any subsequent call with a different column — the
mutation outlives the call. -/
theorem format_other_mutates_shared_mapping (cm : ColumnsMapping)
    (X : Str) (d : DF) (spot : Option Spot) :
    ((_format_other cm X (some d) spot).1.othersMap.lookup X =
      some (str ("close"))) ∧
    (∀ (Y : Str) (d' : DF) (spot' : Option Spot), Y ≠ X →
      ((_format_other (_format_other cm X (some d) spot).1 Y (some d')
          spot').1.othersMap.lookup X = some (str ("close")))) := by
  constructor
  · rw [format_other_fst]
    exact Mapping.lookup_setKey_self cm.othersMap X (str ("close"))
  · intro Y d' spot' hne
    rw [format_other_fst, format_other_fst]
    dsimp only
    rw [Mapping.lookup_setKey_ne _ _ _ _ (Ne.symm hne)]
    exact Mapping.lookup_setKey_self cm.othersMap X (str ("close"))

/-- C10 (witness): after formatting a spot table with value column
`VALUE`, the shared mapping binds `VALUE ↦ close`, and it still does after
a later call with column `PX`. -/
theorem format_other_mutates_shared_mapping_witness :
    ((_format_other cm0 (str ("VALUE")) (some d0) none).1.othersMap.lookup
      (str ("VALUE")) = some (str ("close"))) ∧
    ((_format_other (_format_other cm0 (str ("VALUE")) (some d0) none).1
        (str ("PX")) (some d0) none).1.othersMap.lookup (str ("VALUE")) =
      some (str ("close"))) :=
  ⟨(format_other_mutates_shared_mapping cm0 (str ("VALUE")) d0 none).1,
   (format_other_mutates_shared_mapping cm0 (str ("VALUE")) d0 none).2
     (str ("PX")) d0 none (by decide)⟩

end PyTrendFollow
